import Mathlib

/-!
Verification development for the NAM-D diagnostic engine.

Shallow embedding of the technique-identification and risk-aggregation core:
- `RISK_SCORER` from src/execute.py (lines 50-172),
- `identify_ttp_dual` from src/ttp_id.py (lines 2809-2906),
- `compute_ta_resonance_score` from src/target_audience.py (lines 115-130).

Modelling conventions:
- Python floats are modelled as exact rationals (the properties under study
  are order/algebraic, not bit-level IEEE facts).
- Python strings are modelled as Lean `String`; the Python primitives
  `s.lower()`, `needle in hay`, `not s.strip()`, `s.split()` and
  `" ".join(xs)` are implemented below over the underlying character list.
- Python `list.sort(key=..., reverse=True)` is a stable sort; it is modelled
  with `List.insertionSort`, which is stable for a total preorder and hence
  produces the same list.
- The external neural embedding step (`embed_texts`, out of scope per the
  spec) is abstracted: `identify_ttp_dual` receives, for each registry entry,
  its already category-adjusted similarity `sim` in registry iteration order;
  everything after that point is transcribed from the source.
-/

namespace NAMD

/-! ### Python string primitives -/

/-- Contiguous-sublist test on character lists: Python's `needle in hay`.
An empty needle is contained in everything, as in Python. -/
def infixOf (n : List Char) : List Char → Bool
  | [] => n.isEmpty
  | c :: t => n.isPrefixOf (c :: t) || infixOf n t

/-- Python `needle in hay` on strings. -/
def pyIn (needle hay : String) : Bool :=
  infixOf needle.data hay.data

/-- Python `s.lower()` (ASCII case folding suffices for the source data). -/
def pyLower (s : String) : String :=
  ⟨s.data.map Char.toLower⟩

/-- Python `not s.strip()`: true exactly when every character of `s` is
whitespace (in particular for the empty string). -/
def isBlank (s : String) : Bool :=
  s.data.all Char.isWhitespace

/-- Python `s.split()` (no argument): split on whitespace runs, dropping
empty pieces. -/
def pySplit (s : String) : List String :=
  ((s.data.splitOnP Char.isWhitespace).filter (fun w => !w.isEmpty)).map
    (fun w => ⟨w⟩)

/-- Python `" ".join(xs)`. -/
def joinSpace (xs : List String) : String :=
  ⟨(List.intersperse [' '] (xs.map String.data)).flatten⟩

/-! ### Shared numeric helpers -/

/-- `max(0.0, min(1.0, v))` as used at execute.py lines 122 and 146. -/
def clamp01 (x : ℚ) : ℚ := max 0 (min 1 x)

/-- Python `round(x, 3)`.  (Python rounds half to even; no similarity in the
development sits exactly on a half-thousandth, so round-half-up is used.) -/
def round3 (x : ℚ) : ℚ := (round (x * 1000) : ℚ) / 1000

/-- Python `round(x, 2)`, same caveat as `round3`. -/
def round2 (x : ℚ) : ℚ := (round (x * 100) : ℚ) / 100

/-! ### Data model (src/data_structures.py) -/

/-- One identified technique as consumed by `RISK_SCORER`
(`t["name"]`, `t["confidence"]`). -/
structure TTP where
  name : String
  confidence : ℚ
deriving DecidableEq

/-- `VulnerabilityMap` from src/data_structures.py.  The summary mapping is
irrelevant to scoring and modelled as string pairs. -/
structure VulnerabilityMap where
  psychological_hits : List String
  sociocultural_hits : List String
  alignment_score : ℚ
  vulnerability_summary : List (String × String)
deriving DecidableEq

/-- `PeripheralSignals` from src/data_structures.py (second, overriding
definition at lines 107-111). -/
structure PeripheralSignals where
  cognitive_load : ℚ
  framing_patterns : List String
  temporal_cues : List String
  peripheral_score : ℚ
deriving DecidableEq

/-- `RiskAssessment` from src/data_structures.py. -/
structure RiskAssessment where
  risk_index : ℤ
  instability : ℚ
  confidence : ℚ
  p : ℚ
  m : ℚ
  e : ℚ
  s : ℚ
  i : ℚ
  infra : ℚ
deriving DecidableEq

/-! ### Keyword dictionaries (execute.py lines 73-78) -/

def political_keywords : List String :=
  ["eu", "un", "icc", "icj", "brussels", "the hague", "brics", "nato",
   "wto", "g7", "g20", "sanctions", "diplomacy", "treaty", "summit",
   "election", "regime", "elite", "corruption", "deep state",
   "polarization", "sovereignty", "international law"]

def military_keywords : List String :=
  ["nato", "army", "navy", "air force", "military equipment", "troops",
   "battalion", "division", "weapon", "missile", "drone", "cyberwar",
   "hybrid warfare", "aggression", "invasion", "defense", "alliance",
   "peacekeeping", "arms race"]

def economic_keywords : List String :=
  ["oil", "opec", "sanctions", "shipping", "gas", "energy", "trade war",
   "tariff", "currency", "inflation", "recession", "supply chain",
   "blockade", "boycott", "market crash", "poverty", "wealth gap"]

def social_keywords : List String :=
  ["community", "tribe", "ethnicity", "religion", "protest", "riot",
   "migration", "demographic", "inequality", "social media amplification",
   "echo chamber", "genocide", "human rights", "civil unrest",
   "polarization", "identity politics"]

def information_keywords : List String :=
  ["fake news", "disinformation", "misinformation", "deepfake", "bot",
   "amplify", "narrative", "framing", "censorship", "media bias",
   "information warfare"]

def infrastructure_keywords : List String :=
  ["power grid", "transportation", "water", "communication network",
   "cyber infrastructure", "supply lines", "port", "pipeline",
   "critical infrastructure"]

/-! ### RISK_SCORER internals (execute.py lines 50-172) -/

/-- `ttp_conf_by_keyword` lookup (execute.py lines 65-70): the maximum
confidence over identified techniques whose lower-cased, whitespace-split
name contains `kw`, defaulting to `0.0`. -/
def ttpConfByKeyword (ttps : List TTP) (kw : String) : ℚ :=
  (ttps.filterMap fun t =>
    if (pySplit (pyLower t.name)).contains kw then some t.confidence
    else none).foldl max 0

/-- Number of keywords whose lowering occurs literally in the (already
lower-cased) narrative text — the `hits` generator inside
`keyword_hit_score` (execute.py line 84). -/
def hitCount (keywords : List String) (narrative_lower : String) : ℕ :=
  (keywords.filter fun kw => pyIn (pyLower kw) narrative_lower).length

/-- `keyword_hit_score` (execute.py lines 83-85), as a function of the hit
count: `min(hits * multiplier, 0.6)`. -/
def keyword_hit_score (hits : ℕ) (multiplier : ℚ) : ℚ :=
  min (hits * multiplier) (6/10)

/-- `domain_boost` (execute.py lines 88-93).  A `None`/empty `source_hits`
contributes nothing, so both cases are the empty list here. -/
def domain_boost (ttps : List TTP) (base : ℚ) (keywords : List String)
    (source_hits : List String) (max_boost : ℚ) : ℚ :=
  let strength₁ : ℚ :=
    ((source_hits.filter fun hit =>
      keywords.any fun kw => pyIn kw (pyLower hit)).length : ℚ) * (2/10)
  let strength₂ : ℚ :=
    (keywords.map fun kw => ttpConfByKeyword ttps kw).sum * (3/10)
  min (base + (strength₁ + strength₂)) (base + max_boost)

/-- Political domain before clamping (execute.py lines 96-99), including the
`+0.2` bump when an identified-technique name mentions "politicized",
"distrust" or "identity". -/
def political_raw (vm : VulnerabilityMap) (pe : PeripheralSignals)
    (ttps : List TTP) (text : String) : ℚ :=
  let v := domain_boost ttps (3/10) political_keywords
      vm.sociocultural_hits (7/10)
    + keyword_hit_score (hitCount political_keywords (pyLower text)) (15/100)
  if ["politicized", "distrust", "identity"].any
      (fun kw => pyIn kw (joinSpace (ttps.map fun t => pyLower t.name)))
  then min 1 (v + 2/10) else v

/-- Military domain before clamping (execute.py lines 102-103). -/
def military_raw (vm : VulnerabilityMap) (pe : PeripheralSignals)
    (ttps : List TTP) (text : String) : ℚ :=
  domain_boost ttps (35/100) military_keywords pe.framing_patterns (65/100)
    + keyword_hit_score (hitCount military_keywords (pyLower text)) (12/100)

/-- Economic domain before clamping (execute.py lines 106-107). -/
def economic_raw (vm : VulnerabilityMap) (pe : PeripheralSignals)
    (ttps : List TTP) (text : String) : ℚ :=
  domain_boost ttps (3/10) economic_keywords vm.sociocultural_hits (7/10)
    + keyword_hit_score (hitCount economic_keywords (pyLower text)) (15/100)

/-- Social domain before clamping (execute.py lines 110-111). -/
def social_raw (vm : VulnerabilityMap) (pe : PeripheralSignals)
    (ttps : List TTP) (text : String) : ℚ :=
  domain_boost ttps (2/10) social_keywords
      (vm.psychological_hits ++ vm.sociocultural_hits) (4/10)
    + keyword_hit_score (hitCount social_keywords (pyLower text)) (1/10)

/-- Information domain before clamping (execute.py lines 114-115): no
additive base constant, only technique-confidence mass and keyword hits. -/
def information_raw (vm : VulnerabilityMap) (pe : PeripheralSignals)
    (ttps : List TTP) (text : String) : ℚ :=
  min 1 ((ttps.map TTP.confidence).sum / 4)
    + keyword_hit_score (hitCount information_keywords (pyLower text)) (18/100)

/-- Infrastructure domain before clamping (execute.py lines 118-119). -/
def infrastructure_raw (vm : VulnerabilityMap) (pe : PeripheralSignals)
    (ttps : List TTP) (text : String) : ℚ :=
  domain_boost ttps (3/10) infrastructure_keywords pe.temporal_cues (6/10)
    + keyword_hit_score (hitCount infrastructure_keywords (pyLower text)) (12/100)

/-- Clamped political domain score (execute.py lines 121-124). -/
def political_score (vm : VulnerabilityMap) (pe : PeripheralSignals)
    (ttps : List TTP) (text : String) : ℚ :=
  clamp01 (political_raw vm pe ttps text)

/-- Clamped military domain score. -/
def military_score (vm : VulnerabilityMap) (pe : PeripheralSignals)
    (ttps : List TTP) (text : String) : ℚ :=
  clamp01 (military_raw vm pe ttps text)

/-- Clamped economic domain score. -/
def economic_score (vm : VulnerabilityMap) (pe : PeripheralSignals)
    (ttps : List TTP) (text : String) : ℚ :=
  clamp01 (economic_raw vm pe ttps text)

/-- Clamped social domain score. -/
def social_score (vm : VulnerabilityMap) (pe : PeripheralSignals)
    (ttps : List TTP) (text : String) : ℚ :=
  clamp01 (social_raw vm pe ttps text)

/-- Clamped information domain score. -/
def information_score (vm : VulnerabilityMap) (pe : PeripheralSignals)
    (ttps : List TTP) (text : String) : ℚ :=
  clamp01 (information_raw vm pe ttps text)

/-- Clamped infrastructure domain score. -/
def infrastructure_score (vm : VulnerabilityMap) (pe : PeripheralSignals)
    (ttps : List TTP) (text : String) : ℚ :=
  clamp01 (infrastructure_raw vm pe ttps text)

/-- First audience-resonance component (execute.py line 128):
`political * (1 + ta_resonance * 0.2)`. -/
def comp_political (vm : VulnerabilityMap) (pe : PeripheralSignals)
    (ttps : List TTP) (text : String) : ℚ :=
  political_score vm pe ttps text * (1 + vm.alignment_score * (2/10))

/-- `military * (1 + ta_resonance * 0.2)` (execute.py line 129). -/
def comp_military (vm : VulnerabilityMap) (pe : PeripheralSignals)
    (ttps : List TTP) (text : String) : ℚ :=
  military_score vm pe ttps text * (1 + vm.alignment_score * (2/10))

/-- `economic * (1 + ta_resonance * 0.2)` (execute.py line 130). -/
def comp_economic (vm : VulnerabilityMap) (pe : PeripheralSignals)
    (ttps : List TTP) (text : String) : ℚ :=
  economic_score vm pe ttps text * (1 + vm.alignment_score * (2/10))

/-- `social * (1 + ta_resonance * 0.2)` (execute.py line 131). -/
def comp_social (vm : VulnerabilityMap) (pe : PeripheralSignals)
    (ttps : List TTP) (text : String) : ℚ :=
  social_score vm pe ttps text * (1 + vm.alignment_score * (2/10))

/-- `information * (1 + ta_resonance * 0.3)` (execute.py line 132). -/
def comp_information (vm : VulnerabilityMap) (pe : PeripheralSignals)
    (ttps : List TTP) (text : String) : ℚ :=
  information_score vm pe ttps text * (1 + vm.alignment_score * (3/10))

/-- `infrastructure * (1 + ta_resonance * 0.15)` (execute.py line 133). -/
def comp_infrastructure (vm : VulnerabilityMap) (pe : PeripheralSignals)
    (ttps : List TTP) (text : String) : ℚ :=
  infrastructure_score vm pe ttps text * (1 + vm.alignment_score * (15/100))

/-- `instability_components` (execute.py lines 127-134). -/
def instability_components (vm : VulnerabilityMap) (pe : PeripheralSignals)
    (ttps : List TTP) (text : String) : List ℚ :=
  [comp_political vm pe ttps text,
   comp_military vm pe ttps text,
   comp_economic vm pe ttps text,
   comp_social vm pe ttps text,
   comp_information vm pe ttps text,
   comp_infrastructure vm pe ttps text]

/-- Weighted, clamped instability (execute.py lines 137-146). -/
def instability (vm : VulnerabilityMap) (pe : PeripheralSignals)
    (ttps : List TTP) (text : String) : ℚ :=
  clamp01 ((2/10) * comp_political vm pe ttps text
    + (1/10) * comp_military vm pe ttps text
    + (15/100) * comp_economic vm pe ttps text
    + (2/10) * comp_social vm pe ttps text
    + (25/100) * comp_information vm pe ttps text
    + (1/10) * comp_infrastructure vm pe ttps text)

/-- `signal_count` (execute.py lines 152-159): how many clamped domain
scores strictly exceed 0.5. -/
def signal_count (vm : VulnerabilityMap) (pe : PeripheralSignals)
    (ttps : List TTP) (text : String) : ℕ :=
  ([political_score vm pe ttps text, military_score vm pe ttps text,
    economic_score vm pe ttps text, social_score vm pe ttps text,
    information_score vm pe ttps text,
    infrastructure_score vm pe ttps text].filter
      fun x => decide ((1/2 : ℚ) < x)).length

/-- `RISK_SCORER` (execute.py lines 50-172).  `int(instability * 99)` is
floor here because the clamped instability is nonnegative. -/
def RISK_SCORER (vm : VulnerabilityMap) (pe : PeripheralSignals)
    (identified_ttps : List TTP) (narrative_text : String) : RiskAssessment :=
  { risk_index := ⌊instability vm pe identified_ttps narrative_text * 99⌋ + 1
    instability := instability vm pe identified_ttps narrative_text
    confidence := round2 ((6/10) + (4/10) *
      ((signal_count vm pe identified_ttps narrative_text : ℚ) / 6))
    p := political_score vm pe identified_ttps narrative_text
    m := military_score vm pe identified_ttps narrative_text
    e := economic_score vm pe identified_ttps narrative_text
    s := social_score vm pe identified_ttps narrative_text
    i := information_score vm pe identified_ttps narrative_text
    infra := infrastructure_score vm pe identified_ttps narrative_text }

/-- `RISK_SCORER` under Python call semantics when the identified-technique
argument is `None`: line 66 `for t in identified_ttps` raises `TypeError`
(`NoneType` is not iterable), so the call never returns an assessment. -/
def RISK_SCORER_opt (vm : VulnerabilityMap) (pe : PeripheralSignals)
    (identified_ttps : Option (List TTP)) (narrative_text : String) :
    Except String RiskAssessment :=
  match identified_ttps with
  | none => Except.error "TypeError: argument of type NoneType is not iterable"
  | some ttps => Except.ok (RISK_SCORER vm pe ttps narrative_text)

/-! ### Dual-registry technique identification (src/ttp_id.py lines 2809-2906)

The neural embedding and the category-aware similarity adjustment
(lines 2824-2847 resp. 2862-2870) are functions of the narrative text and the
fixed registry data only; their outcome per entry is a single rational, the
adjusted similarity.  `ScoredEntry` carries that value (`sim`) together with
the entry's id and name, in registry iteration order; everything from the
threshold filter on (lines 2849-2906) is transcribed below. -/

structure ScoredEntry where
  id : String
  name : String
  sim : ℚ
deriving DecidableEq

/-- One element of the result list of `identify_ttp_dual`
(ttp_id.py lines 2850-2855 / 2873-2878). -/
structure TtpMatch where
  id : String
  name : String
  confidence : ℚ
  source : String
deriving DecidableEq

/-- Result dict built from a qualifying entry: confidence is
`round(sim, 3)`. -/
def toMatch (source : String) (e : ScoredEntry) : TtpMatch :=
  ⟨e.id, e.name, round3 e.sim, source⟩

/-- Descending-by-confidence comparison used by every
`sort(key=lambda x: x["confidence"], reverse=True)` call. -/
def confGe (a b : TtpMatch) : Prop := b.confidence ≤ a.confidence

instance : DecidableRel confGe :=
  fun a b => inferInstanceAs (Decidable (b.confidence ≤ a.confidence))

instance : IsTotal TtpMatch confGe := ⟨fun a b => le_total b.confidence a.confidence⟩

instance : IsTrans TtpMatch confGe := ⟨fun _ _ _ h h' => le_trans h' h⟩

/-- Python's stable in-place sort by confidence, descending. -/
def sortDesc (l : List TtpMatch) : List TtpMatch :=
  l.insertionSort confGe

/-- Entries whose adjusted similarity passes the threshold
(`if sim >= min_confidence`, ttp_id.py lines 2849 / 2872). -/
def qualifying (min_conf : ℚ) (l : List ScoredEntry) : List ScoredEntry :=
  l.filter fun e => decide (min_conf ≤ e.sim)

/-- Per-registry match list: filter by threshold, build result dicts, sort
descending by (rounded) confidence (ttp_id.py lines 2827-2857 / 2860-2880). -/
def registryMatches (source : String) (min_conf : ℚ)
    (scored : List ScoredEntry) : List TtpMatch :=
  sortDesc ((qualifying min_conf scored).map (toMatch source))

/-- The balanced-merge step of `identify_ttp_dual` (ttp_id.py lines
2882-2900): take the top `top_k` of each registry's sorted match list; if the
combined count is below `top_k * 2`, pool the next entries of both
registries, sort them descending and backfill up to the target. -/
def balancedMerge (cat_matches disarm_matches : List TtpMatch)
    (top_k : ℕ) : List TtpMatch :=
  let final₀ := cat_matches.take top_k ++ disarm_matches.take top_k
  let total_target := top_k * 2
  if final₀.length < total_target then
    let remaining_needed := total_target - final₀.length
    let extra_cat := (cat_matches.drop top_k).take remaining_needed
    let extra_disarm := (disarm_matches.drop top_k).take remaining_needed
    let extras := sortDesc (extra_cat ++ extra_disarm)
    final₀ ++ extras.take remaining_needed
  else final₀

/-- `identify_ttp_dual` (ttp_id.py lines 2809-2906): blank-input
short-circuit, per-registry matching, balanced merge with backfill, final
descending sort, cap at `top_k * 2`. -/
def identify_ttp_dual (narrative_text : String)
    (catScored disarmScored : List ScoredEntry)
    (top_k_per_registry : ℕ) (min_confidence : ℚ) : List TtpMatch :=
  if isBlank narrative_text then [] else
    (sortDesc (balancedMerge
      (registryMatches "CAT" min_confidence catScored)
      (registryMatches "DISARM" min_confidence disarmScored)
      top_k_per_registry)).take (top_k_per_registry * 2)

/-! ### Target-audience resonance (src/target_audience.py lines 115-130) -/

/-- `compute_ta_resonance_score`: hit counts plus a 0.15-per-technique boost,
scaled by the calibration ceiling 12 and capped at 1. -/
def compute_ta_resonance_score (psychological_hits sociocultural_hits : List String)
    (identified_ttps : List TTP) : ℚ :=
  let base_hits : ℚ := ((psychological_hits.length + sociocultural_hits.length : ℕ) : ℚ)
  let ttp_boost : ℚ := (identified_ttps.length : ℚ) * (15/100)
  let raw_score := base_hits + ttp_boost
  let max_possible : ℚ := 12
  min 1 (raw_score / max_possible)

/-! ### Basic facts about the clamp -/

lemma clamp01_nonneg (x : ℚ) : 0 ≤ clamp01 x := le_max_left 0 _

lemma clamp01_le_one (x : ℚ) : clamp01 x ≤ 1 :=
  max_le (by norm_num) (min_le_left 1 x)

lemma clamp01_mono {x y : ℚ} (h : x ≤ y) : clamp01 x ≤ clamp01 y :=
  max_le_max le_rfl (min_le_min le_rfl h)

/-! ### Claims -/

/-- C1: every `RiskAssessment` produced by the risk aggregator has its six
domain scores in [0,1], its instability in [0,1], and its risk index equal
to `floor(instability*99)+1`, hence in the closed range [1,100]. -/
theorem risk_scorer_bounds (vm : VulnerabilityMap) (pe : PeripheralSignals)
    (ttps : List TTP) (text : String) :
    (0 ≤ (RISK_SCORER vm pe ttps text).p ∧ (RISK_SCORER vm pe ttps text).p ≤ 1)
    ∧ (0 ≤ (RISK_SCORER vm pe ttps text).m ∧ (RISK_SCORER vm pe ttps text).m ≤ 1)
    ∧ (0 ≤ (RISK_SCORER vm pe ttps text).e ∧ (RISK_SCORER vm pe ttps text).e ≤ 1)
    ∧ (0 ≤ (RISK_SCORER vm pe ttps text).s ∧ (RISK_SCORER vm pe ttps text).s ≤ 1)
    ∧ (0 ≤ (RISK_SCORER vm pe ttps text).i ∧ (RISK_SCORER vm pe ttps text).i ≤ 1)
    ∧ (0 ≤ (RISK_SCORER vm pe ttps text).infra ∧ (RISK_SCORER vm pe ttps text).infra ≤ 1)
    ∧ (0 ≤ (RISK_SCORER vm pe ttps text).instability
        ∧ (RISK_SCORER vm pe ttps text).instability ≤ 1)
    ∧ (RISK_SCORER vm pe ttps text).risk_index
        = ⌊(RISK_SCORER vm pe ttps text).instability * 99⌋ + 1
    ∧ 1 ≤ (RISK_SCORER vm pe ttps text).risk_index
    ∧ (RISK_SCORER vm pe ttps text).risk_index ≤ 100 := by
  have h0 : 0 ≤ instability vm pe ttps text := clamp01_nonneg _
  have h1 : instability vm pe ttps text ≤ 1 := clamp01_le_one _
  have hfl0 : 0 ≤ ⌊instability vm pe ttps text * 99⌋ :=
    Int.floor_nonneg.mpr (by positivity)
  have hfl99 : ⌊instability vm pe ttps text * 99⌋ ≤ 99 := by
    have : instability vm pe ttps text * 99 ≤ 99 := by nlinarith
    exact le_trans (Int.floor_le_floor this) (by norm_num)
  exact ⟨⟨clamp01_nonneg _, clamp01_le_one _⟩, ⟨clamp01_nonneg _, clamp01_le_one _⟩,
    ⟨clamp01_nonneg _, clamp01_le_one _⟩, ⟨clamp01_nonneg _, clamp01_le_one _⟩,
    ⟨clamp01_nonneg _, clamp01_le_one _⟩, ⟨clamp01_nonneg _, clamp01_le_one _⟩,
    ⟨h0, h1⟩, rfl, by
      show 1 ≤ ⌊instability vm pe ttps text * 99⌋ + 1
      linarith, by
      show ⌊instability vm pe ttps text * 99⌋ + 1 ≤ 100
      linarith⟩

/-- C10: the resonance score of the vulnerability-inference component equals
`min(1, (|psych| + |socio| + 0.15 * |ttps|) / 12)` and always lies in
[0,1]. -/
theorem resonance_score_formula (ph sh : List String) (ttps : List TTP) :
    compute_ta_resonance_score ph sh ttps
      = min 1 (((ph.length : ℚ) + (sh.length : ℚ) + (15/100) * (ttps.length : ℚ)) / 12)
    ∧ 0 ≤ compute_ta_resonance_score ph sh ttps
    ∧ compute_ta_resonance_score ph sh ttps ≤ 1 := by
  refine ⟨?_, ?_, ?_⟩
  · unfold compute_ta_resonance_score
    push_cast
    ring_nf
  · unfold compute_ta_resonance_score
    refine le_min (by norm_num) ?_
    positivity
  · exact min_le_left 1 _

/-- C6 (amended): `RISK_SCORER` requires an actual identified-technique
list.  Passing `None` makes line 66 (`for t in identified_ttps`) raise
`TypeError` instead of degrading to the empty-list behaviour; with a real
list the call returns the usual assessment. -/
theorem risk_scorer_none_raises (vm : VulnerabilityMap) (pe : PeripheralSignals)
    (text : String) :
    RISK_SCORER_opt vm pe none text
      = Except.error "TypeError: argument of type NoneType is not iterable"
    ∧ ∀ ttps : List TTP,
        RISK_SCORER_opt vm pe (some ttps) text
          = Except.ok (RISK_SCORER vm pe ttps text) :=
  ⟨rfl, fun _ => rfl⟩

/-- C6 counterexample: at a concrete input, the call with `None` does not
produce the assessment of the empty-list call (it raises instead), refuting
the claim that a missing identified-technique list is treated as empty. -/
theorem risk_scorer_none_counterexample :
    RISK_SCORER_opt ⟨[], [], 0, []⟩ ⟨0, [], [], 0⟩ none ""
      ≠ Except.ok (RISK_SCORER ⟨[], [], 0, []⟩ ⟨0, [], [], 0⟩ [] "") := by
  simp [RISK_SCORER_opt]

/-- Fixed baseline inputs used by several concrete witnesses. -/
def vm0 : VulnerabilityMap := ⟨[], [], 0, []⟩

def pe0 : PeripheralSignals := ⟨0, [], [], 0⟩

/-- `keyword_hit_score` is monotone in the hit count (for a nonnegative
multiplier, as all call sites use). -/
lemma keyword_hit_score_mono {m : ℚ} (hm : 0 ≤ m) {h₁ h₂ : ℕ} (h : h₁ ≤ h₂) :
    keyword_hit_score h₁ m ≤ keyword_hit_score h₂ m :=
  min_le_min (mul_le_mul_of_nonneg_right (Nat.cast_le.mpr h) hm) le_rfl

/-- C9: increasing the audience-resonance score (the vulnerability map's
`alignment_score`), all other inputs fixed, never decreases the instability
returned by the risk aggregator. -/
theorem instability_resonance_mono (ph sh : List String)
    (sm : List (String × String)) (pe : PeripheralSignals)
    (ttps : List TTP) (text : String) {r₁ r₂ : ℚ} (h : r₁ ≤ r₂) :
    (RISK_SCORER ⟨ph, sh, r₁, sm⟩ pe ttps text).instability
      ≤ (RISK_SCORER ⟨ph, sh, r₂, sm⟩ pe ttps text).instability := by
  show instability ⟨ph, sh, r₁, sm⟩ pe ttps text
    ≤ instability ⟨ph, sh, r₂, sm⟩ pe ttps text
  show clamp01 ((2/10) * (political_score ⟨ph, sh, r₂, sm⟩ pe ttps text * (1 + r₁ * (2/10)))
      + (1/10) * (military_score ⟨ph, sh, r₂, sm⟩ pe ttps text * (1 + r₁ * (2/10)))
      + (15/100) * (economic_score ⟨ph, sh, r₂, sm⟩ pe ttps text * (1 + r₁ * (2/10)))
      + (2/10) * (social_score ⟨ph, sh, r₂, sm⟩ pe ttps text * (1 + r₁ * (2/10)))
      + (25/100) * (information_score ⟨ph, sh, r₂, sm⟩ pe ttps text * (1 + r₁ * (3/10)))
      + (1/10) * (infrastructure_score ⟨ph, sh, r₂, sm⟩ pe ttps text * (1 + r₁ * (15/100))))
    ≤ clamp01 ((2/10) * (political_score ⟨ph, sh, r₂, sm⟩ pe ttps text * (1 + r₂ * (2/10)))
      + (1/10) * (military_score ⟨ph, sh, r₂, sm⟩ pe ttps text * (1 + r₂ * (2/10)))
      + (15/100) * (economic_score ⟨ph, sh, r₂, sm⟩ pe ttps text * (1 + r₂ * (2/10)))
      + (2/10) * (social_score ⟨ph, sh, r₂, sm⟩ pe ttps text * (1 + r₂ * (2/10)))
      + (25/100) * (information_score ⟨ph, sh, r₂, sm⟩ pe ttps text * (1 + r₂ * (3/10)))
      + (1/10) * (infrastructure_score ⟨ph, sh, r₂, sm⟩ pe ttps text * (1 + r₂ * (15/100))))
  apply clamp01_mono
  gcongr <;> exact clamp01_nonneg _

/-- C9 witness: the monotonicity theorem applied at a concrete input with
resonance scores 0 and 1. -/
theorem instability_resonance_mono_witness :
    ((0 : ℚ) ≤ 1)
    ∧ (RISK_SCORER ⟨[], [], 0, []⟩ pe0 [] "nato").instability
        ≤ (RISK_SCORER ⟨[], [], 1, []⟩ pe0 [] "nato").instability :=
  ⟨by norm_num,
   instability_resonance_mono [] [] [] pe0 [] "nato" (by norm_num)⟩

/-- C8: for each of the six PMESII domains, increasing the number of that
domain's keywords occurring literally in the (lower-cased) narrative text,
holding every other input fixed, never decreases that domain's clamped
score. -/
theorem domain_keyword_monotonicity (vm : VulnerabilityMap)
    (pe : PeripheralSignals) (ttps : List TTP) (t₁ t₂ : String) :
    (hitCount political_keywords (pyLower t₁) ≤ hitCount political_keywords (pyLower t₂)
      → political_score vm pe ttps t₁ ≤ political_score vm pe ttps t₂)
    ∧ (hitCount military_keywords (pyLower t₁) ≤ hitCount military_keywords (pyLower t₂)
      → military_score vm pe ttps t₁ ≤ military_score vm pe ttps t₂)
    ∧ (hitCount economic_keywords (pyLower t₁) ≤ hitCount economic_keywords (pyLower t₂)
      → economic_score vm pe ttps t₁ ≤ economic_score vm pe ttps t₂)
    ∧ (hitCount social_keywords (pyLower t₁) ≤ hitCount social_keywords (pyLower t₂)
      → social_score vm pe ttps t₁ ≤ social_score vm pe ttps t₂)
    ∧ (hitCount information_keywords (pyLower t₁) ≤ hitCount information_keywords (pyLower t₂)
      → information_score vm pe ttps t₁ ≤ information_score vm pe ttps t₂)
    ∧ (hitCount infrastructure_keywords (pyLower t₁) ≤ hitCount infrastructure_keywords (pyLower t₂)
      → infrastructure_score vm pe ttps t₁ ≤ infrastructure_score vm pe ttps t₂) := by
  refine ⟨fun h => clamp01_mono ?_, fun h => clamp01_mono ?_, fun h => clamp01_mono ?_,
    fun h => clamp01_mono ?_, fun h => clamp01_mono ?_, fun h => clamp01_mono ?_⟩
  · unfold political_raw
    split_ifs with hc
    · exact min_le_min le_rfl
        (add_le_add_right (add_le_add_left (keyword_hit_score_mono (by norm_num) h) _) _)
    · exact add_le_add_left (keyword_hit_score_mono (by norm_num) h) _
  · exact add_le_add_left (keyword_hit_score_mono (by norm_num) h) _
  · exact add_le_add_left (keyword_hit_score_mono (by norm_num) h) _
  · exact add_le_add_left (keyword_hit_score_mono (by norm_num) h) _
  · exact add_le_add_left (keyword_hit_score_mono (by norm_num) h) _
  · exact add_le_add_left (keyword_hit_score_mono (by norm_num) h) _

/-- C8 witness: the six monotonicity implications applied at concrete texts
(the empty text, with zero hits in every domain, against a text containing a
keyword of each domain). -/
theorem domain_keyword_monotonicity_witness :
    (hitCount political_keywords (pyLower "")
        ≤ hitCount political_keywords (pyLower "sanctions protest water bot nato oil")
      ∧ political_score vm0 pe0 [] ""
        ≤ political_score vm0 pe0 [] "sanctions protest water bot nato oil")
    ∧ (hitCount military_keywords (pyLower "")
        ≤ hitCount military_keywords (pyLower "sanctions protest water bot nato oil")
      ∧ military_score vm0 pe0 [] ""
        ≤ military_score vm0 pe0 [] "sanctions protest water bot nato oil")
    ∧ (hitCount economic_keywords (pyLower "")
        ≤ hitCount economic_keywords (pyLower "sanctions protest water bot nato oil")
      ∧ economic_score vm0 pe0 [] ""
        ≤ economic_score vm0 pe0 [] "sanctions protest water bot nato oil")
    ∧ (hitCount social_keywords (pyLower "")
        ≤ hitCount social_keywords (pyLower "sanctions protest water bot nato oil")
      ∧ social_score vm0 pe0 [] ""
        ≤ social_score vm0 pe0 [] "sanctions protest water bot nato oil")
    ∧ (hitCount information_keywords (pyLower "")
        ≤ hitCount information_keywords (pyLower "sanctions protest water bot nato oil")
      ∧ information_score vm0 pe0 [] ""
        ≤ information_score vm0 pe0 [] "sanctions protest water bot nato oil")
    ∧ (hitCount infrastructure_keywords (pyLower "")
        ≤ hitCount infrastructure_keywords (pyLower "sanctions protest water bot nato oil")
      ∧ infrastructure_score vm0 pe0 [] ""
        ≤ infrastructure_score vm0 pe0 [] "sanctions protest water bot nato oil") := by
  have hmain := domain_keyword_monotonicity vm0 pe0 []
    "" "sanctions protest water bot nato oil"
  have h₁ : hitCount political_keywords (pyLower "")
      ≤ hitCount political_keywords (pyLower "sanctions protest water bot nato oil") := by decide
  have h₂ : hitCount military_keywords (pyLower "")
      ≤ hitCount military_keywords (pyLower "sanctions protest water bot nato oil") := by decide
  have h₃ : hitCount economic_keywords (pyLower "")
      ≤ hitCount economic_keywords (pyLower "sanctions protest water bot nato oil") := by decide
  have h₄ : hitCount social_keywords (pyLower "")
      ≤ hitCount social_keywords (pyLower "sanctions protest water bot nato oil") := by decide
  have h₅ : hitCount information_keywords (pyLower "")
      ≤ hitCount information_keywords (pyLower "sanctions protest water bot nato oil") := by decide
  have h₆ : hitCount infrastructure_keywords (pyLower "")
      ≤ hitCount infrastructure_keywords (pyLower "sanctions protest water bot nato oil") := by decide
  exact ⟨⟨h₁, hmain.1 h₁⟩, ⟨h₂, hmain.2.1 h₂⟩, ⟨h₃, hmain.2.2.1 h₃⟩,
    ⟨h₄, hmain.2.2.2.1 h₄⟩, ⟨h₅, hmain.2.2.2.2.1 h₅⟩, ⟨h₆, hmain.2.2.2.2.2 h₆⟩⟩

/-- With no identified techniques the keyword confidence lookup is
identically zero. -/
lemma ttpConfByKeyword_nil (kw : String) : ttpConfByKeyword [] kw = 0 := rfl

lemma sum_ttpConf_nil (kws : List String) :
    (kws.map fun kw => ttpConfByKeyword [] kw).sum = 0 := by
  simp [ttpConfByKeyword]

/-- With no techniques and no source hits, `domain_boost` returns exactly
the base value (all call sites use a nonnegative cap). -/
lemma domain_boost_baseline (base : ℚ) (kws : List String) {mb : ℚ}
    (h : 0 ≤ mb) : domain_boost [] base kws [] mb = base := by
  unfold domain_boost
  rw [sum_ttpConf_nil]
  norm_num
  exact h

lemma keyword_hit_score_zero (m : ℚ) : keyword_hit_score 0 m = 0 := by
  norm_num [keyword_hit_score]

/-- C3 (amended): blank input short-circuits `identify_ttp_dual` to the
empty sequence; and the risk aggregator, run with no identified techniques,
no vulnerability hits, no peripheral hits and no keyword occurrences,
returns the five additive base values 0.3, 0.35, 0.3, 0.2, 0.3 for the
political, military, economic, social and infrastructure domains — but the
information domain, which has no additive base constant, returns 0. -/
theorem blank_input_baseline (text : String) (cat dis : List ScoredEntry)
    (k : ℕ) (mc : ℚ) (hblank : isBlank text = true)
    (r cl ps : ℚ) (sm : List (String × String)) (t₂ : String)
    (h₁ : hitCount political_keywords (pyLower t₂) = 0)
    (h₂ : hitCount military_keywords (pyLower t₂) = 0)
    (h₃ : hitCount economic_keywords (pyLower t₂) = 0)
    (h₄ : hitCount social_keywords (pyLower t₂) = 0)
    (h₅ : hitCount information_keywords (pyLower t₂) = 0)
    (h₆ : hitCount infrastructure_keywords (pyLower t₂) = 0) :
    identify_ttp_dual text cat dis k mc = []
    ∧ (RISK_SCORER ⟨[], [], r, sm⟩ ⟨cl, [], [], ps⟩ [] t₂).p = 3/10
    ∧ (RISK_SCORER ⟨[], [], r, sm⟩ ⟨cl, [], [], ps⟩ [] t₂).m = 35/100
    ∧ (RISK_SCORER ⟨[], [], r, sm⟩ ⟨cl, [], [], ps⟩ [] t₂).e = 3/10
    ∧ (RISK_SCORER ⟨[], [], r, sm⟩ ⟨cl, [], [], ps⟩ [] t₂).s = 2/10
    ∧ (RISK_SCORER ⟨[], [], r, sm⟩ ⟨cl, [], [], ps⟩ [] t₂).i = 0
    ∧ (RISK_SCORER ⟨[], [], r, sm⟩ ⟨cl, [], [], ps⟩ [] t₂).infra = 3/10 := by
  refine ⟨by simp [identify_ttp_dual, hblank], ?_, ?_, ?_, ?_, ?_, ?_⟩
  · show political_score ⟨[], [], r, sm⟩ ⟨cl, [], [], ps⟩ [] t₂ = 3/10
    have hc : (["politicized", "distrust", "identity"].any
        (fun kw => pyIn kw (joinSpace (([] : List TTP).map fun t => pyLower t.name)))) = false := by
      decide
    rw [political_score, political_raw]
    simp only [hc, Bool.false_eq_true, if_false, h₁, keyword_hit_score_zero]
    rw [domain_boost_baseline _ _ (by norm_num)]
    norm_num [clamp01]
  · show military_score ⟨[], [], r, sm⟩ ⟨cl, [], [], ps⟩ [] t₂ = 35/100
    rw [military_score, military_raw]
    simp only [h₂, keyword_hit_score_zero]
    rw [domain_boost_baseline _ _ (by norm_num)]
    norm_num [clamp01]
  · show economic_score ⟨[], [], r, sm⟩ ⟨cl, [], [], ps⟩ [] t₂ = 3/10
    rw [economic_score, economic_raw]
    simp only [h₃, keyword_hit_score_zero]
    rw [domain_boost_baseline _ _ (by norm_num)]
    norm_num [clamp01]
  · show social_score ⟨[], [], r, sm⟩ ⟨cl, [], [], ps⟩ [] t₂ = 2/10
    rw [social_score, social_raw]
    simp only [h₄, keyword_hit_score_zero, List.nil_append]
    rw [domain_boost_baseline _ _ (by norm_num)]
    norm_num [clamp01]
  · show information_score ⟨[], [], r, sm⟩ ⟨cl, [], [], ps⟩ [] t₂ = 0
    rw [information_score, information_raw]
    simp only [h₅, keyword_hit_score_zero]
    norm_num [clamp01]
  · show infrastructure_score ⟨[], [], r, sm⟩ ⟨cl, [], [], ps⟩ [] t₂ = 3/10
    rw [infrastructure_score, infrastructure_raw]
    simp only [h₆, keyword_hit_score_zero]
    rw [domain_boost_baseline _ _ (by norm_num)]
    norm_num [clamp01]

/-- C3 witness: the blank/baseline theorem applied at whitespace input and
the empty narrative text. -/
theorem blank_input_baseline_witness :
    isBlank " \n " = true
    ∧ hitCount political_keywords (pyLower "") = 0
    ∧ identify_ttp_dual " \n " [] [] 5 (45/100) = []
    ∧ (RISK_SCORER ⟨[], [], 0, []⟩ ⟨0, [], [], 0⟩ [] "").p = 3/10
    ∧ (RISK_SCORER ⟨[], [], 0, []⟩ ⟨0, [], [], 0⟩ [] "").i = 0 := by
  have h := blank_input_baseline " \n " [] [] 5 (45/100) (by decide)
    0 0 0 [] "" (by decide) (by decide) (by decide) (by decide) (by decide) (by decide)
  exact ⟨by decide, by decide, h.1, h.2.1, h.2.2.2.2.2.1⟩

/-- C3 counterexample: at the concrete no-evidence input the information
domain score of the returned assessment is 0, refuting the claim that every
domain score equals a positive base value (and that no domain score is
zero). -/
theorem information_domain_zero_counterexample :
    hitCount information_keywords (pyLower "") = 0
    ∧ (RISK_SCORER vm0 pe0 [] "").i = 0 := by
  refine ⟨by decide, ?_⟩
  show information_score vm0 pe0 [] "" = 0
  have h : hitCount information_keywords (pyLower "") = 0 := by decide
  rw [information_score, information_raw, h, keyword_hit_score_zero]
  norm_num [clamp01]

/-- C4 (amended): the six domain scores are clamped to [0,1] once, before
the audience-resonance multiplier; the post-multiplier values entering the
weighted sum are not re-clamped — for a resonance score in [0,1] they are
only bounded by 1.3 — and it is the final weighted instability that is
clamped to [0,1]. -/
theorem clamp_before_multiplier (vm : VulnerabilityMap)
    (pe : PeripheralSignals) (ttps : List TTP) (text : String) :
    (0 ≤ political_score vm pe ttps text ∧ political_score vm pe ttps text ≤ 1)
    ∧ (0 ≤ military_score vm pe ttps text ∧ military_score vm pe ttps text ≤ 1)
    ∧ (0 ≤ economic_score vm pe ttps text ∧ economic_score vm pe ttps text ≤ 1)
    ∧ (0 ≤ social_score vm pe ttps text ∧ social_score vm pe ttps text ≤ 1)
    ∧ (0 ≤ information_score vm pe ttps text ∧ information_score vm pe ttps text ≤ 1)
    ∧ (0 ≤ infrastructure_score vm pe ttps text ∧ infrastructure_score vm pe ttps text ≤ 1)
    ∧ (0 ≤ vm.alignment_score → vm.alignment_score ≤ 1 →
        ∀ c ∈ instability_components vm pe ttps text, c ≤ 13/10)
    ∧ (0 ≤ instability vm pe ttps text ∧ instability vm pe ttps text ≤ 1) := by
  refine ⟨⟨clamp01_nonneg _, clamp01_le_one _⟩, ⟨clamp01_nonneg _, clamp01_le_one _⟩,
    ⟨clamp01_nonneg _, clamp01_le_one _⟩, ⟨clamp01_nonneg _, clamp01_le_one _⟩,
    ⟨clamp01_nonneg _, clamp01_le_one _⟩, ⟨clamp01_nonneg _, clamp01_le_one _⟩,
    ?_, ⟨clamp01_nonneg _, clamp01_le_one _⟩⟩
  intro hr0 hr1 c hc
  simp only [instability_components, List.mem_cons, List.not_mem_nil, or_false] at hc
  rcases hc with h | h | h | h | h | h <;> subst h
  · have h0 := clamp01_nonneg (political_raw vm pe ttps text)
    have h1 := clamp01_le_one (political_raw vm pe ttps text)
    unfold comp_political political_score
    nlinarith
  · have h0 := clamp01_nonneg (military_raw vm pe ttps text)
    have h1 := clamp01_le_one (military_raw vm pe ttps text)
    unfold comp_military military_score
    nlinarith
  · have h0 := clamp01_nonneg (economic_raw vm pe ttps text)
    have h1 := clamp01_le_one (economic_raw vm pe ttps text)
    unfold comp_economic economic_score
    nlinarith
  · have h0 := clamp01_nonneg (social_raw vm pe ttps text)
    have h1 := clamp01_le_one (social_raw vm pe ttps text)
    unfold comp_social social_score
    nlinarith
  · have h0 := clamp01_nonneg (information_raw vm pe ttps text)
    have h1 := clamp01_le_one (information_raw vm pe ttps text)
    unfold comp_information information_score
    nlinarith
  · have h0 := clamp01_nonneg (infrastructure_raw vm pe ttps text)
    have h1 := clamp01_le_one (infrastructure_raw vm pe ttps text)
    unfold comp_infrastructure infrastructure_score
    nlinarith

/-- C4 witness: the amended theorem applied at a concrete input with
resonance score 0. -/
theorem clamp_before_multiplier_witness :
    ((0 : ℚ) ≤ 0) ∧ ((0 : ℚ) ≤ 1)
    ∧ comp_political vm0 pe0 [] "" ≤ 13/10 := by
  refine ⟨le_refl 0, by norm_num, ?_⟩
  exact (clamp_before_multiplier vm0 pe0 [] "").2.2.2.2.2.2.1
    (by norm_num [vm0]) (by norm_num [vm0]) _ (by simp [instability_components])

/-- C4 counterexample: at a concrete input (resonance score 1, four
sociocultural hits matching political keywords) the first value entering the
weighted sum is 1.2 > 1, refuting the claim that every value entering the
weighted sum is clamped to at most 1 after the multiplier. -/
theorem component_exceeds_one_counterexample :
    comp_political ⟨[], ["eu", "eu", "eu", "eu"], 1, []⟩ pe0 [] "x" = 12/10
    ∧ comp_political ⟨[], ["eu", "eu", "eu", "eu"], 1, []⟩ pe0 [] "x"
        ∈ instability_components ⟨[], ["eu", "eu", "eu", "eu"], 1, []⟩ pe0 [] "x"
    ∧ (1 : ℚ) < 12/10 := by
  refine ⟨?_, by simp [instability_components], by norm_num⟩
  have hc : (["politicized", "distrust", "identity"].any
      (fun kw => pyIn kw (joinSpace (([] : List TTP).map fun t => pyLower t.name)))) = false := by
    decide
  have hh : hitCount political_keywords (pyLower "x") = 0 := by decide
  have hf : ((["eu", "eu", "eu", "eu"].filter fun hit =>
      political_keywords.any fun kw => pyIn kw (pyLower hit)).length) = 4 := by decide
  unfold comp_political political_score political_raw
  simp only [hc, Bool.false_eq_true, if_false, hh, keyword_hit_score_zero]
  unfold domain_boost
  rw [sum_ttpConf_nil, hf]
  norm_num [clamp01]

/-! ### Structural lemmas about the identifier -/

lemma length_registryMatches (src : String) (mc : ℚ) (l : List ScoredEntry) :
    (registryMatches src mc l).length = (qualifying mc l).length := by
  simp [registryMatches, sortDesc, List.length_insertionSort]

lemma registryMatches_perm (src : String) (mc : ℚ) (l : List ScoredEntry) :
    (registryMatches src mc l).Perm ((qualifying mc l).map (toMatch src)) :=
  List.perm_insertionSort _ _

lemma mem_registryMatches_source {x : TtpMatch} {src : String} {mc : ℚ}
    {l : List ScoredEntry} (h : x ∈ registryMatches src mc l) :
    x.source = src := by
  have hx := (registryMatches_perm src mc l).mem_iff.mp h
  rcases List.mem_map.mp hx with ⟨e, _, rfl⟩
  rfl

/-- When both registries can fill their quota, no backfill happens. -/
lemma balancedMerge_full {A B : List TtpMatch} {k : ℕ}
    (hA : k ≤ A.length) (hB : k ≤ B.length) :
    balancedMerge A B k = A.take k ++ B.take k := by
  unfold balancedMerge
  have h0 : (A.take k ++ B.take k).length = k * 2 := by
    rw [List.length_append, List.length_take, List.length_take,
      min_eq_left hA, min_eq_left hB]
    omega
  simp only [h0, lt_self_iff_false, if_false]

/-- In the 8-versus-2 scenario with quota 5, the balanced merge returns all
ten qualifying matches (as a permutation of the two registries' lists). -/
lemma balancedMerge_backfill_8_2 {A B : List TtpMatch}
    (hA : A.length = 8) (hB : B.length = 2) :
    (balancedMerge A B 5).Perm (A ++ B) := by
  unfold balancedMerge
  have hBtake : B.take 5 = B := List.take_of_length_le (by omega)
  have h0 : (A.take 5 ++ B.take 5).length = 7 := by
    rw [List.length_append, List.length_take, List.length_take, hA, hB]
    omega
  simp only [h0, if_pos (by norm_num : 7 < 5 * 2)]
  have hrem : 5 * 2 - 7 = 3 := by norm_num
  have hAdrop : (A.drop 5).length = 3 := by rw [List.length_drop, hA]
  have hBdrop : B.drop 5 = [] := List.drop_eq_nil_of_le (by omega)
  have hcatX : (A.drop 5).take 3 = A.drop 5 :=
    List.take_of_length_le (le_of_eq hAdrop)
  have hdisX : (B.drop 5).take 3 = ([] : List TtpMatch) := by
    rw [hBdrop, List.take_nil]
  rw [hrem, hcatX, hdisX, List.append_nil]
  have hsortlen : (sortDesc (A.drop 5)).length = 3 := by
    rw [sortDesc, List.length_insertionSort, hAdrop]
  rw [List.take_of_length_le (le_of_eq hsortlen), hBtake]
  refine (List.Perm.append_left _ (List.perm_insertionSort confGe _)).trans ?_
  rw [List.append_assoc]
  refine (List.Perm.append_left _ List.perm_append_comm).trans ?_
  rw [← List.append_assoc, List.take_append_drop]

/-- C7 (amended): the sequence returned by `identify_ttp_dual` is always
sorted by confidence descending; equal-confidence results keep the stable
order of the merge stage (CAT top-k block, then DISARM top-k block, then
backfill), not an order derived from registry and id. -/
theorem identify_sorted_desc (text : String) (cat dis : List ScoredEntry)
    (k : ℕ) (mc : ℚ) :
    List.Sorted (fun a b : TtpMatch => b.confidence ≤ a.confidence)
      (identify_ttp_dual text cat dis k mc) := by
  unfold identify_ttp_dual
  split
  · exact List.sorted_nil
  · exact List.Pairwise.sublist (List.take_sublist _ _)
      (List.sorted_insertionSort confGe _)

/-- C2: the identifier never returns more than `2 * topK` results; and on
non-blank input, whenever each registry has at least `topK` entries whose
adjusted similarity passes the threshold, the result contains exactly `topK`
matches from each registry. -/
theorem identify_balanced_merge (text : String) (cat dis : List ScoredEntry)
    (k : ℕ) (mc : ℚ) :
    (identify_ttp_dual text cat dis k mc).length ≤ 2 * k
    ∧ (isBlank text = false →
        k ≤ (qualifying mc cat).length →
        k ≤ (qualifying mc dis).length →
        (identify_ttp_dual text cat dis k mc).countP
            (fun m => m.source == "CAT") = k
        ∧ (identify_ttp_dual text cat dis k mc).countP
            (fun m => m.source == "DISARM") = k) := by
  constructor
  · unfold identify_ttp_dual
    split
    · simp
    · rw [(by ring : 2 * k = k * 2)]
      exact List.length_take_le _ _
  · intro hb hcat hdis
    have hA : k ≤ (registryMatches "CAT" mc cat).length := by
      rw [length_registryMatches]; exact hcat
    have hB : k ≤ (registryMatches "DISARM" mc dis).length := by
      rw [length_registryMatches]; exact hdis
    unfold identify_ttp_dual
    simp only [hb, Bool.false_eq_true, if_false]
    rw [balancedMerge_full hA hB]
    set A := registryMatches "CAT" mc cat with hAdef
    set B := registryMatches "DISARM" mc dis with hBdef
    have hlen : (A.take k ++ B.take k).length = k * 2 := by
      rw [List.length_append, List.length_take, List.length_take,
        min_eq_left hA, min_eq_left hB]
      omega
    have hslen : (sortDesc (A.take k ++ B.take k)).length = k * 2 := by
      rw [sortDesc, List.length_insertionSort, hlen]
    rw [List.take_of_length_le (le_of_eq hslen)]
    have hperm : (sortDesc (A.take k ++ B.take k)).Perm (A.take k ++ B.take k) :=
      List.perm_insertionSort _ _
    have hsrcA : ∀ x ∈ A.take k, x.source = "CAT" := fun x hx =>
      mem_registryMatches_source (List.mem_of_mem_take hx)
    have hsrcB : ∀ x ∈ B.take k, x.source = "DISARM" := fun x hx =>
      mem_registryMatches_source (List.mem_of_mem_take hx)
    have htakeA : (A.take k).length = k := by
      rw [List.length_take]; exact min_eq_left hA
    have htakeB : (B.take k).length = k := by
      rw [List.length_take]; exact min_eq_left hB
    constructor
    · rw [hperm.countP_eq, List.countP_append]
      have c1 : (A.take k).countP (fun m => m.source == "CAT") = k := by
        rw [List.countP_eq_length.mpr, htakeA]
        intro a ha
        simp [hsrcA a ha]
      have c2 : (B.take k).countP (fun m => m.source == "CAT") = 0 := by
        rw [List.countP_eq_zero.mpr]
        intro a ha
        simp [hsrcB a ha]
      rw [c1, c2]
      omega
    · rw [hperm.countP_eq, List.countP_append]
      have c1 : (A.take k).countP (fun m => m.source == "DISARM") = 0 := by
        rw [List.countP_eq_zero.mpr]
        intro a ha
        simp [hsrcA a ha]
      have c2 : (B.take k).countP (fun m => m.source == "DISARM") = k := by
        rw [List.countP_eq_length.mpr, htakeB]
        intro a ha
        simp [hsrcB a ha]
      rw [c1, c2]
      omega

/-- C2 witness: the balanced-merge theorem applied at a concrete non-blank
input where each registry has exactly one qualifying entry and the quota is
one per registry. -/
theorem identify_balanced_merge_witness :
    isBlank "x" = false
    ∧ 1 ≤ (qualifying (45/100) [(⟨"CAT-001", "a", 1/2⟩ : ScoredEntry)]).length
    ∧ 1 ≤ (qualifying (45/100) [(⟨"DIS-001", "d", 1/2⟩ : ScoredEntry)]).length
    ∧ (identify_ttp_dual "x" [⟨"CAT-001", "a", 1/2⟩] [⟨"DIS-001", "d", 1/2⟩]
        1 (45/100)).length ≤ 2 * 1
    ∧ (identify_ttp_dual "x" [⟨"CAT-001", "a", 1/2⟩] [⟨"DIS-001", "d", 1/2⟩]
        1 (45/100)).countP (fun m => m.source == "CAT") = 1
    ∧ (identify_ttp_dual "x" [⟨"CAT-001", "a", 1/2⟩] [⟨"DIS-001", "d", 1/2⟩]
        1 (45/100)).countP (fun m => m.source == "DISARM") = 1 := by
  have hb : isBlank "x" = false := by decide
  have hq1 : 1 ≤ (qualifying (45/100) [(⟨"CAT-001", "a", 1/2⟩ : ScoredEntry)]).length := by
    norm_num [qualifying, List.filter]
  have hq2 : 1 ≤ (qualifying (45/100) [(⟨"DIS-001", "d", 1/2⟩ : ScoredEntry)]).length := by
    norm_num [qualifying, List.filter]
  have h := identify_balanced_merge "x" [⟨"CAT-001", "a", 1/2⟩]
    [⟨"DIS-001", "d", 1/2⟩] 1 (45/100)
  exact ⟨hb, hq1, hq2, h.1, (h.2 hb hq1 hq2).1, (h.2 hb hq1 hq2).2⟩

/-- C5: with quota 5 per registry, when the CAT registry has exactly 8
qualifying entries and the DISARM registry exactly 2, the identifier returns
exactly 10 results — all 8 CAT matches and both DISARM matches — sorted by
confidence descending. -/
theorem identify_backfill_scenario (text : String) (cat dis : List ScoredEntry)
    (mc : ℚ) (hblank : isBlank text = false)
    (hcat : (qualifying mc cat).length = 8)
    (hdis : (qualifying mc dis).length = 2) :
    (identify_ttp_dual text cat dis 5 mc).length = 10
    ∧ (identify_ttp_dual text cat dis 5 mc).Perm
        (((qualifying mc cat).map (toMatch "CAT"))
          ++ ((qualifying mc dis).map (toMatch "DISARM")))
    ∧ List.Sorted (fun a b : TtpMatch => b.confidence ≤ a.confidence)
        (identify_ttp_dual text cat dis 5 mc) := by
  have hA : (registryMatches "CAT" mc cat).length = 8 := by
    rw [length_registryMatches]; exact hcat
  have hB : (registryMatches "DISARM" mc dis).length = 2 := by
    rw [length_registryMatches]; exact hdis
  have hmerge := balancedMerge_backfill_8_2 hA hB
  have hmlen : (balancedMerge (registryMatches "CAT" mc cat)
      (registryMatches "DISARM" mc dis) 5).length = 10 := by
    rw [hmerge.length_eq, List.length_append, hA, hB]
  have hslen : (sortDesc (balancedMerge (registryMatches "CAT" mc cat)
      (registryMatches "DISARM" mc dis) 5)).length = 10 := by
    rw [sortDesc, List.length_insertionSort, hmlen]
  have heq : identify_ttp_dual text cat dis 5 mc
      = sortDesc (balancedMerge (registryMatches "CAT" mc cat)
        (registryMatches "DISARM" mc dis) 5) := by
    unfold identify_ttp_dual
    simp only [hblank, Bool.false_eq_true, if_false]
    exact List.take_of_length_le (le_of_eq hslen)
  refine ⟨by rw [heq, hslen], ?_, ?_⟩
  · rw [heq]
    exact ((List.perm_insertionSort confGe _).trans hmerge).trans
      (List.Perm.append (registryMatches_perm _ _ _) (registryMatches_perm _ _ _))
  · rw [heq]
    exact List.sorted_insertionSort confGe _

/-- Eight CAT entries passing the 0.45 threshold (witness registry). -/
def catW : List ScoredEntry :=
  [⟨"CAT-001", "a", 9/10⟩, ⟨"CAT-002", "b", 88/100⟩, ⟨"CAT-003", "c", 86/100⟩,
   ⟨"CAT-004", "d", 84/100⟩, ⟨"CAT-005", "e", 82/100⟩, ⟨"CAT-006", "f", 8/10⟩,
   ⟨"CAT-007", "g", 78/100⟩, ⟨"CAT-008", "h", 76/100⟩]

/-- Two DISARM entries passing the 0.45 threshold (witness registry). -/
def disW : List ScoredEntry :=
  [⟨"DIS-001", "p", 87/100⟩, ⟨"DIS-002", "q", 81/100⟩]

/-- C5 witness: the 8-versus-2 backfill theorem applied at a concrete pair
of registries. -/
theorem identify_backfill_scenario_witness :
    isBlank "y" = false
    ∧ (qualifying (45/100) catW).length = 8
    ∧ (qualifying (45/100) disW).length = 2
    ∧ (identify_ttp_dual "y" catW disW 5 (45/100)).length = 10
    ∧ (identify_ttp_dual "y" catW disW 5 (45/100)).Perm
        (((qualifying (45/100) catW).map (toMatch "CAT"))
          ++ ((qualifying (45/100) disW).map (toMatch "DISARM")))
    ∧ List.Sorted (fun a b : TtpMatch => b.confidence ≤ a.confidence)
        (identify_ttp_dual "y" catW disW 5 (45/100)) := by
  have hb : isBlank "y" = false := by decide
  have h8 : (qualifying (45/100) catW).length = 8 := by
    norm_num [qualifying, catW, List.filter]
  have h2 : (qualifying (45/100) disW).length = 2 := by
    norm_num [qualifying, disW, List.filter]
  have h := identify_backfill_scenario "y" catW disW (45/100) hb h8 h2
  exact ⟨hb, h8, h2, h.1, h.2.1, h.2.2⟩

/-- Registry ranking with CAT first. -/
def rankCATFirst : String → ℕ := fun src => if src = "CAT" then 0 else 1

/-- Registry ranking with DISARM first. -/
def rankDISARMFirst : String → ℕ := fun src => if src = "DISARM" then 0 else 1

/-- The consequence of "ties are broken by registry then by id" used for
refutation: under any fixed registry precedence, equal-confidence results
must appear with non-decreasing registry rank (two tied results of different
registries are ordered by the registry precedence alone; tied results of the
same registry have equal rank). -/
def tieRespectsRegistryOrder (rank : String → ℕ) (out : List TtpMatch) : Prop :=
  out.Pairwise fun a b => a.confidence = b.confidence → rank a.source ≤ rank b.source

/-- Three CAT entries with identical adjusted similarity. -/
def catC7 : List ScoredEntry :=
  [⟨"CAT-001", "a", 1/2⟩, ⟨"CAT-002", "b", 1/2⟩, ⟨"CAT-003", "c", 1/2⟩]

/-- One DISARM entry with the same adjusted similarity. -/
def disC7 : List ScoredEntry := [⟨"DIS-001", "d", 1/2⟩]

/-- C7 counterexample: with quota 2, three tied CAT entries and one tied
DISARM entry, the output interleaves the registries as CAT, CAT, DISARM, CAT
at a single confidence value — under neither registry precedence are the
ties ordered by registry (and id), because the stable sort keeps the
merge-stage block order instead. -/
theorem tie_break_counterexample :
    (identify_ttp_dual "x" catC7 disC7 2 (45/100)).map TtpMatch.source
      = ["CAT", "CAT", "DISARM", "CAT"]
    ∧ (identify_ttp_dual "x" catC7 disC7 2 (45/100)).map TtpMatch.confidence
      = [1/2, 1/2, 1/2, 1/2]
    ∧ ¬ tieRespectsRegistryOrder rankCATFirst
        (identify_ttp_dual "x" catC7 disC7 2 (45/100))
    ∧ ¬ tieRespectsRegistryOrder rankDISARMFirst
        (identify_ttp_dual "x" catC7 disC7 2 (45/100)) := by
  have heval : identify_ttp_dual "x" catC7 disC7 2 (45/100)
      = [⟨"CAT-001", "a", 1/2, "CAT"⟩, ⟨"CAT-002", "b", 1/2, "CAT"⟩,
         ⟨"DIS-001", "d", 1/2, "DISARM"⟩, ⟨"CAT-003", "c", 1/2, "CAT"⟩] := by
    have hb : isBlank "x" = false := by decide
    rw [identify_ttp_dual]
    simp only [hb, Bool.false_eq_true, if_false]
    norm_num [balancedMerge, registryMatches, qualifying,
      sortDesc, toMatch, round3, round_eq, List.insertionSort,
      List.orderedInsert, confGe, catC7, disC7]
  refine ⟨by rw [heval]; rfl, by rw [heval]; rfl, ?_, ?_⟩
  · intro h
    rw [tieRespectsRegistryOrder, heval] at h
    have h1 := (List.pairwise_cons.mp h).2
    have h2 := (List.pairwise_cons.mp h1).2
    have h3 := (List.pairwise_cons.mp h2).1
    have hdc := h3 _ (List.mem_cons_self _ _)
    exact absurd (hdc rfl) (by decide)
  · intro h
    rw [tieRespectsRegistryOrder, heval] at h
    have h1 := (List.pairwise_cons.mp h).2
    have hbd := (List.pairwise_cons.mp h1).1 _ (List.mem_cons_self _ _)
    exact absurd (hbd rfl) (by decide)

end NAMD
